import Mathlib

/-!
Verification of the starx session-and-dispatch core (`network/handler.go`,
`app.go`) against its natural-language specification.  Pure shallow
embedding: bytes are `List Nat`, Go maps are association lists, side
effects (logging, socket writes, cluster RPC, heartbeats, closing the
agent) are recorded in an explicit `Effect` trace.  External collaborators
that live outside the verified files (packet codec, message codec, route
parser, serializer, cluster RPC, agent send) are either modelled from the
spec (where the spec pins their behaviour down) or abstracted as fields of
an `Env` record (where only their result matters to the dispatcher).
-/

namespace Starx

/-! ## Packet codec -/

/-- A decoded packet: `Type` byte, 24-bit `Length`, body bytes.
The type byte is kept as a raw `Nat` exactly as it appears on the wire. -/
structure Packet where
  typ : Nat
  length : Nat
  data : List Nat
deriving DecidableEq, Repr

/-- Fixed packet header length (spec section 3). -/
def HeadLength : Nat := 4

/-- Valid packet type bytes: Handshake=1, HandshakeAck=2, Heartbeat=3,
Data=4, Kick=5 (spec section 3). -/
def validType (t : Nat) : Bool := 1 ≤ t && t ≤ 5

/-- Modelled from the spec: `packet.Pack` (section 4.1) produces
`Type || be24(len(Data)) || Data`.  The packet codec itself is outside the
provided source files. -/
def Pack (p : Packet) : List Nat :=
  p.typ :: p.length / 65536 % 256 :: p.length / 256 % 256 :: p.length % 256 :: p.data

/-- Modelled from the spec: `packet.Unpack` (section 4.1).  Requires at
least a 4-byte header, fails with `BadType` on a type byte outside the
enumerated set, returns no packet and the buffer unchanged when the body
is not yet fully present, and otherwise returns the packet plus the
trailing bytes. -/
def Unpack : List Nat → Except String (Option Packet × List Nat)
  | t :: a :: b :: c :: rest =>
    if validType t then
      let len := a * 65536 + b * 256 + c
      if rest.length < len then
        Except.ok (none, t :: a :: b :: c :: rest)
      else
        Except.ok (some { typ := t, length := len, data := rest.take len }, rest.drop len)
    else
      Except.error ("BadType")
  | _ => Except.error ("ShortHeader")

/-! ## The reader accumulator loop (`handlerService.Handle`, inner loop)

The Go loop is

    for len(tmp) >= packet.HeadLength {
        p, tmp, err = packet.Unpack(tmp)
        if err != nil { agent.close(); break }
        packetChan <- &unhandledPacket{agent: agent, packet: p}
    }

Note that the loop enqueues `p` even when `Unpack` returned a nil packet
(incomplete body) and then retries on the unchanged buffer, so the loop
need not terminate; `drain` therefore carries explicit fuel, and a fuel
exhaustion is reported as `stuck`.  Each enqueued element is an
`Option Packet` (`none` for a nil packet pointer). -/

/-- Result of running the inner drain loop: `finished` (loop condition
became false), `errClosed` (`Unpack` errored, agent closed), or `stuck`
(fuel ran out while the loop was still running). -/
inductive DrainOut where
  | finished (emitted : List (Option Packet)) (tmp : List Nat)
  | errClosed (emitted : List (Option Packet))
  | stuck (emitted : List (Option Packet)) (tmp : List Nat)
deriving DecidableEq, Repr

/-- Fuel-indexed embedding of the inner `for len(tmp) >= HeadLength` loop
of `handlerService.Handle`. -/
def drain : Nat → List Nat → DrainOut
  | 0, tmp => DrainOut.stuck [] tmp
  | fuel + 1, tmp =>
    if tmp.length < HeadLength then
      DrainOut.finished [] tmp
    else
      match Unpack tmp with
      | Except.error _ => DrainOut.errClosed []
      | Except.ok (p, rest) =>
        match drain fuel rest with
        | DrainOut.finished es t => DrainOut.finished (p :: es) t
        | DrainOut.errClosed es => DrainOut.errClosed (p :: es)
        | DrainOut.stuck es t => DrainOut.stuck (p :: es) t

/-- The outer read loop of `handlerService.Handle`: each read appends its
chunk to the accumulator `tmp` and runs the drain loop. -/
def feed (fuel : Nat) : List Nat → List (List Nat) → DrainOut
  | tmp, [] => DrainOut.finished [] tmp
  | tmp, c :: cs =>
    match drain fuel (tmp ++ c) with
    | DrainOut.finished es t =>
      match feed fuel t cs with
      | DrainOut.finished es2 t2 => DrainOut.finished (es ++ es2) t2
      | DrainOut.errClosed es2 => DrainOut.errClosed (es ++ es2)
      | DrainOut.stuck es2 t2 => DrainOut.stuck (es ++ es2) t2
    | DrainOut.errClosed es => DrainOut.errClosed es
    | DrainOut.stuck es t => DrainOut.stuck es t

/-! ## Messages, routes, sessions -/

/-- Application-level message type (`message.Request` etc.). -/
inductive MsgType where
  | Request
  | Notify
  | Response
  | Push
deriving DecidableEq, Repr

/-- An application-level message, as produced by `message.Decode`.  The
wire form of the message codec is outside the verified files; only the
decoded record matters to the dispatcher. -/
structure Message where
  type : MsgType
  id : Nat
  route : String
  data : List Nat
deriving DecidableEq, Repr

/-- A parsed route (`route.Route`): server type, service, method. -/
structure Route where
  serverType : String
  service : String
  method : String
deriving DecidableEq, Repr

/-- Split a character list on `.`, keeping empty components, with the
semantics of Go's `strings.Split`.  The accumulator holds the current
component in reverse. -/
def splitDots : List Char → List Char → List String
  | [], acc => [String.mk acc.reverse]
  | c :: cs, acc =>
    if c = '.' then String.mk acc.reverse :: splitDots cs [] else splitDots cs (c :: acc)

/-- Modelled from the spec: `route.Decode` (section 4.3).  Splits on dots;
two components give an empty server type, three give all fields, anything
else is `BadRoute`.  The route parser is outside the provided source
files. -/
def routeDecode (s : String) : Except String Route :=
  match splitDots s.data [] with
  | [sv, mth] => Except.ok { serverType := "", service := sv, method := mth }
  | [t, sv, mth] => Except.ok { serverType := t, service := sv, method := mth }
  | _ => Except.error ("BadRoute")

/-- The per-client session state used by the dispatcher: its id and
`LastID`, the id of the most recent Request (0 after a Notify). -/
structure Session where
  id : Nat
  lastID : Nat
deriving DecidableEq, Repr

/-- Agent connection status (`statusStart` etc.). -/
inductive AgentStatus where
  | start
  | handshake
  | working
  | closed
deriving DecidableEq, Repr

/-! ## Handler registry -/

/-- Result of running a user handler method: normal return, an error
return value, or a Go panic. -/
inductive HandlerOutcome where
  | ok
  | err (e : String)
  | panicked (e : String)
deriving DecidableEq, Repr

/-- A handler method descriptor: the `raw` flag (second argument is a byte
slice rather than a decoded object) and the user code itself, abstracted
as a function from the session and the payload to an outcome. -/
structure HandlerMethod where
  raw : Bool
  run : Session → List Nat → HandlerOutcome

/-- A registered service: its name and its method table. -/
structure Service where
  name : String
  handlerMethod : List (String × HandlerMethod)

/-- `Lookup(service, method)` of spec section 4.6: a pure map read. -/
def Lookup (m : List (String × Service)) (svc mth : String) : Option HandlerMethod :=
  match m.lookup svc with
  | none => none
  | some s => s.handlerMethod.lookup mth

/-- The receiver value passed to `Register`, with the results of the Go
reflection already computed: the (indirected) type name, the type's
string form, the suitable value-receiver methods
(`suitableHandlerMethods(typ, true)`) and the suitable pointer-receiver
methods used only for the hint message
(`suitableHandlerMethods(PtrTo(typ), false)`).  Structural discovery
itself is Go reflection and is abstracted as these precomputed lists. -/
structure RegComponent where
  typeName : String
  typeString : String
  methods : List (String × HandlerMethod)
  ptrMethods : List (String × HandlerMethod)

/-- Modelled from the spec: a Go identifier is exported when its first
character is upper-case (`isExported` lives outside the provided source
files). -/
def isExported (name : String) : Bool :=
  match name.data with
  | [] => false
  | c :: _ => c.isUpper

/-- `handlerService.Register`.  Returns the error message (if any) and the
resulting service map; every error branch leaves the map as it was
(mirroring the early returns of the Go code; Go's nil-map initialisation
is invisible here since the map is always a value). -/
def Register (m : List (String × Service)) (rcvr : RegComponent) :
    Option String × List (String × Service) :=
  let sname := rcvr.typeName
  if sname = "" then
    (some ("handler.Register: no service name for type " ++ rcvr.typeString), m)
  else if isExported sname = false then
    (some ("handler.Register: type " ++ sname ++ " is not exported"), m)
  else if (m.lookup sname).isSome then
    (some ("handler: service already defined: " ++ sname), m)
  else if rcvr.methods.length = 0 then
    (some (if rcvr.ptrMethods.length ≠ 0 then
        "handler.Register: type " ++ sname ++
          " has no exported methods of suitable type (hint: pass a pointer to value of that type)"
      else
        "handler.Register: type " ++ sname ++ " has no exported methods of suitable type"), m)
  else
    (none, (sname, { name := sname, handlerMethod := rcvr.methods }) :: m)

/-! ## Effects and environment -/

/-- Observable side effects of the dispatcher, in order of occurrence:
log lines (`log.Errorf`/`log.Infof`; `log.Debugf` tracing is not
modelled), socket writes (`agent.Send`), handler invocations
(`method.Func.Call`), cluster RPC calls (`cluster.Call`), heartbeats
(`agent.heartbeat`) and agent closes (`agent.close`). -/
inductive Effect where
  | log (s : String)
  | send (bytes : List Nat)
  | invoke (service method : String) (data : List Nat)
  | clusterCall (kind : String) (r : Route) (s : Session) (payload : List Nat)
  | heartbeat
  | close
deriving DecidableEq, Repr

/-- True exactly on `Effect.send`. -/
def Effect.isSend : Effect → Bool
  | Effect.send _ => true
  | _ => false

/-- True exactly on `Effect.clusterCall`. -/
def Effect.isCall : Effect → Bool
  | Effect.clusterCall _ _ _ _ => true
  | _ => false

/-- The dispatcher's environment: the node's configured server type
(`appConfig.Type`), the heartbeat interval in whole seconds
(`heartbeatInternal.Seconds()`), the registered service map
(`hs.serviceMap`), and the external collaborators abstracted as
functions — `serializer.Deserialize` (result passed to the handler),
`cluster.Call`, `message.Decode` — plus whether `agent.Send` succeeds and
the error text it logs when it fails. -/
structure Env where
  cfgType : String
  heartbeat : Nat
  services : List (String × Service)
  ser : List Nat → Except String (List Nat)
  call : Route → Session → List Nat → Except String (List Nat)
  decodeMsg : List Nat → Except String Message
  sendOk : Bool
  sendErr : String

/-! ## Dispatch (`processMessage` / `localProcess` / `remoteProcess`) -/

/-- `handlerService.localProcess`: look up the service, then the method;
for `raw` methods pass the payload bytes, otherwise deserialize; invoke
the handler and log a returned error.  The second component is the panic
payload if the handler panicked (the panic propagates out of
`localProcess` in Go, to be recovered in `processMessage`). -/
def localProcess (env : Env) (s : Session) (r : Route) (m : Message) :
    List Effect × Option String :=
  match env.services.lookup r.service with
  | none => ([Effect.log ("handler: service: " ++ r.service ++ " not found")], none)
  | some svc =>
    match svc.handlerMethod.lookup r.method with
    | none =>
      ([Effect.log ("handler: " ++ r.service ++ " does not contain method: " ++ r.method)], none)
    | some mth =>
      match if mth.raw then Except.ok m.data else env.ser m.data with
      | Except.error e => ([Effect.log ("deserialize error: " ++ e)], none)
      | Except.ok d =>
        match mth.run s d with
        | HandlerOutcome.ok => ([Effect.invoke r.service r.method d], none)
        | HandlerOutcome.err e => ([Effect.invoke r.service r.method d, Effect.log e], none)
        | HandlerOutcome.panicked e => ([Effect.invoke r.service r.method d], some e)

/-- `handlerService.remoteProcess`: one `cluster.Call(rpc.Sys, route,
session, msg.Data)`; the reply value is discarded (bound to `_` in the Go
code) and an error is logged. -/
def remoteProcess (env : Env) (s : Session) (r : Route) (m : Message) : List Effect :=
  Effect.clusterCall ("Sys") r s m.data ::
    match env.call r s m.data with
    | Except.error e => [Effect.log e]
    | Except.ok _ => []

/-- The default-server-type step of `processMessage`: an empty route
server type is replaced by the local node's configured type. -/
def defaultRoute (cfg : String) (r : Route) : Route :=
  if r.serverType = "" then { r with serverType := cfg } else r

/-- The recovery barrier at the top of `processMessage`: a recovered panic
is logged as `processMessage Error: ...`. -/
def recoverLog : Option String → List Effect
  | some e => [Effect.log ("processMessage Error: " ++ e)]
  | none => []

/-- The route-decode-and-dispatch tail of `processMessage` (everything
after the `LastID` switch): decode the route, default its server type,
and dispatch locally when it matches the configured type, remotely
otherwise.  The session has already been updated by the switch. -/
def dispatch (env : Env) (s : Session) (m : Message) : Session × List Effect :=
  match routeDecode m.route with
  | Except.error e => (s, [Effect.log e])
  | Except.ok r0 =>
    let r := defaultRoute env.cfgType r0
    if r.serverType = env.cfgType then
      let lr := localProcess env s r m
      (s, lr.1 ++ recoverLog lr.2)
    else
      (s, remoteProcess env s r m)

/-- `handlerService.processMessage`: set `session.LastID` to `msg.ID` for
Request, to 0 for Notify, reject any other message type; then decode the
route and dispatch.  The deferred `recover` is reflected by `recoverLog`
inside `dispatch` (the only panic source in the model is the handler
invocation). -/
def processMessage (env : Env) (s : Session) (m : Message) : Session × List Effect :=
  match m.type with
  | MsgType.Request => dispatch env { s with lastID := m.id } m
  | MsgType.Notify => dispatch env { s with lastID := 0 } m
  | _ => (s, [Effect.log ("invalid message type")])

/-- The processor goroutine's view of a run: process a list of decoded
messages in order, threading the session and concatenating the effects. -/
def processMessages (env : Env) (s : Session) : List Message → Session × List Effect
  | [] => (s, [])
  | m :: ms =>
    let r1 := processMessage env s m
    let r2 := processMessages env r1.1 ms
    (r2.1, r1.2 ++ r2.2)

/-! ## Packet processing (`processPacket`) -/

/-- UTF-8 bytes of a string, as `Nat`s. -/
def strBytes (s : String) : List Nat :=
  s.toUTF8.toList.map (fun b => b.toNat)

/-- Modelled from the spec: the handshake reply body.  Go's
`json.Marshal(map{"code":200, "sys":map{"heartbeat":h}})` emits the keys
in sorted order, giving this compact object for a whole-second heartbeat
interval `h`. -/
def handshakeBody (h : Nat) : String :=
  "\x7b\"code\":200,\"sys\":\x7b\"heartbeat\":" ++ toString h ++ "\x7d\x7d"

/-- The packed handshake reply packet built in the `Handshake` branch of
`processPacket`: a Handshake-typed packet whose body is the marshalled
handshake JSON. -/
def handshakeResp (h : Nat) : List Nat :=
  Pack { typ := 1, length := (strBytes (handshakeBody h)).length, data := strBytes (handshakeBody h) }

/-- `handlerService.processPacket`, switching on the packet type byte:
Handshake (1) sets the status to `handshake` and sends the handshake
reply, closing the agent when the send fails; HandshakeAck (2) sets the
status to `working`; Data (4) decodes the message, processes it and, by
the Go `fallthrough`, also triggers a heartbeat (a decode error only
logs); Heartbeat (3) triggers a heartbeat; any other type logs
`invalid packet type` and closes the agent. -/
def processPacket (env : Env) (st : AgentStatus) (s : Session) (p : Packet) :
    AgentStatus × Session × List Effect :=
  if p.typ = 1 then
    let resp := handshakeResp env.heartbeat
    if env.sendOk then
      (AgentStatus.handshake, s, [Effect.send resp])
    else
      (AgentStatus.closed, s, [Effect.send resp, Effect.log env.sendErr, Effect.close])
  else if p.typ = 2 then
    (AgentStatus.working, s, [])
  else if p.typ = 4 then
    match env.decodeMsg p.data with
    | Except.error e => (st, s, [Effect.log e])
    | Except.ok m =>
      let r := processMessage env s m
      (st, r.1, r.2 ++ [Effect.heartbeat])
  else if p.typ = 3 then
    (st, s, [Effect.heartbeat])
  else
    (AgentStatus.closed, s, [Effect.log ("invalid packet type"), Effect.close])

/-! ## Concrete fixtures (used by counterexamples and witnesses) -/

/-- A raw echo-style handler method that returns normally. -/
def sayMethod : HandlerMethod :=
  { raw := true, run := fun _ _ => HandlerOutcome.ok }

/-- A raw handler method that panics with payload `boom`. -/
def boomMethod : HandlerMethod :=
  { raw := true, run := fun _ _ => HandlerOutcome.panicked ("boom") }

/-- An `Echo` service with a single method `Say`. -/
def echoService : Service :=
  { name := "Echo", handlerMethod := [("Say", sayMethod)] }

/-- An `Echo` service whose `Say` always panics. -/
def boomService : Service :=
  { name := "Echo", handlerMethod := [("Say", boomMethod)] }

/-- A Request addressed to the local `Echo.Say` handler. -/
def msgEcho : Message :=
  { type := MsgType.Request, id := 7, route := "Echo.Say", data := [104, 105] }

/-- A Request addressed to a remote server type (`chat`). -/
def msgRemote : Message :=
  { type := MsgType.Request, id := 3, route := "chat.room.join", data := [5] }

/-- A Request addressed to an unregistered route. -/
def msgUnknown : Message :=
  { type := MsgType.Request, id := 11, route := "nope.none", data := [] }

/-- A Notify addressed to the local `Echo.Say` handler. -/
def msgNotify : Message :=
  { type := MsgType.Notify, id := 0, route := "Echo.Say", data := [] }

/-- A message of Response type (rejected by `processMessage`). -/
def msgOther : Message :=
  { type := MsgType.Response, id := 2, route := "Echo.Say", data := [] }

/-- A concrete environment: a `connector` node with the echo service
registered; the abstract message decoder always yields `msgEcho`. -/
def envEcho : Env :=
  { cfgType := "connector", heartbeat := 30,
    services := [("Echo", echoService)],
    ser := fun d => Except.ok d,
    call := fun _ _ _ => Except.ok [],
    decodeMsg := fun _ => Except.ok msgEcho,
    sendOk := true, sendErr := "write error" }

/-- `envEcho` with a cluster collaborator that returns reply bytes. -/
def envRemote : Env :=
  { envEcho with call := fun _ _ _ => Except.ok [9, 9] }

/-- `envEcho` with no services registered. -/
def envNone : Env :=
  { envEcho with services := [] }

/-- `envEcho` with the panicking echo service. -/
def envBoom : Env :=
  { envEcho with services := [("Echo", boomService)] }

/-- A fresh session. -/
def sessOne : Session := { id := 1, lastID := 0 }

/-- A Data packet (type byte 4). -/
def pktData : Packet := { typ := 4, length := 2, data := [104, 105] }

/-- A Handshake packet (type byte 1). -/
def pktHs : Packet := { typ := 1, length := 2, data := [123, 125] }

/-- One complete 6-byte packet on the wire: type 1, body `[123, 125]`. -/
def streamOnePacket : List Nat := [1, 0, 0, 2, 123, 125]

/-- The first five bytes of `streamOnePacket`: a complete header plus an
incomplete body. -/
def splitHead : List Nat := [1, 0, 0, 2, 123]

/-- The last byte of `streamOnePacket`. -/
def splitTail : List Nat := [125]

/-- The packet `streamOnePacket` decodes to. -/
def pktDecoded : Packet := { typ := 1, length := 2, data := [123, 125] }

/-- A registrable echo component. -/
def regEcho : RegComponent :=
  { typeName := "Echo", typeString := "Echo", methods := [("Say", sayMethod)], ptrMethods := [] }

/-- A service map that already holds the echo service. -/
def svcMapEcho : List (String × Service) := [("Echo", echoService)]

/-! ## Helper lemmas -/

/-- When `Unpack` makes no progress on a buffer that still holds a full
header (complete header, incomplete body), the drain loop spins on the
unchanged buffer, enqueuing a nil packet on every iteration. -/
theorem drain_stuck_of_incomplete (buf : List Nat) (hlen : ¬ buf.length < HeadLength)
    (hun : Unpack buf = Except.ok (none, buf)) :
    ∀ n, drain n buf = DrainOut.stuck (List.replicate n none) buf := by
  intro n
  induction n with
  | zero => simp [drain]
  | succ k ih => simp [drain, hlen, hun, ih, List.replicate_succ]

/-- `localProcess` never writes to the socket: none of its effects is a
send. -/
theorem localProcess_no_send (env : Env) (s : Session) (r : Route) (m : Message) :
    (localProcess env s r m).1.filter Effect.isSend = [] := by
  unfold localProcess
  rcases h1 : env.services.lookup r.service with _ | svc
  · simp [h1, Effect.isSend]
  · rcases h2 : svc.handlerMethod.lookup r.method with _ | mth
    · simp [h1, h2, Effect.isSend]
    · rcases h3 : (if mth.raw then Except.ok m.data else env.ser m.data) with e | d
      · simp [h1, h2, h3, Effect.isSend]
      · rcases h4 : mth.run s d with _ | e | e <;> simp [h1, h2, h3, h4, Effect.isSend]

/-- `dispatch` returns the session it was given: the route step never
mutates the session. -/
theorem dispatch_fst (env : Env) (s : Session) (m : Message) :
    (dispatch env s m).1 = s := by
  unfold dispatch
  rcases h : routeDecode m.route with e | r
  · simp
  · simp only []
    split <;> simp

/-! ## Claim C5 -/

/-- Claim C5: split framing is claimed to be invariant, but the reader
loop of `Handle` is not: feeding the complete 6-byte stream in one read
decodes exactly its one packet, while feeding the same bytes split after
the fifth byte (complete header, incomplete body) makes the inner drain
loop re-invoke `Unpack` on the unchanged buffer forever — for every fuel
bound it is still running, has enqueued only nil packets, and has never
reached the second read. -/
theorem split_framing_diverges :
    feed 2 [] [streamOnePacket] = DrainOut.finished [some pktDecoded] []
    ∧ ∀ n, feed n [] [splitHead, splitTail] =
        DrainOut.stuck (List.replicate n none) splitHead := by
  constructor
  · decide
  · intro n
    have h := drain_stuck_of_incomplete splitHead (by decide) (by rfl) n
    simp [feed, h]

/-! ## Claim C6 -/

/-- Claim C6: processing a Handshake packet sets the agent status to
`handshake` and sends back a Handshake packet whose body is the compact
JSON object `{"code":200,"sys":{"heartbeat":<seconds>}}`; when that send
fails, the failure is logged and the agent is closed. -/
theorem handshake_reply_and_close_on_send_failure
    (env : Env) (st : AgentStatus) (s : Session) (p : Packet) (hp : p.typ = 1) :
    processPacket env st s p =
      (if env.sendOk then
        (AgentStatus.handshake, s, [Effect.send (handshakeResp env.heartbeat)])
      else
        (AgentStatus.closed, s,
          [Effect.send (handshakeResp env.heartbeat), Effect.log env.sendErr, Effect.close])) := by
  simp [processPacket, hp]

/-- Concrete instance of the C6 theorem: a Handshake packet on a fresh
agent of the echo environment. -/
theorem handshake_reply_witness :
    pktHs.typ = 1
    ∧ processPacket envEcho AgentStatus.start sessOne pktHs =
      (if envEcho.sendOk then
        (AgentStatus.handshake, sessOne, [Effect.send (handshakeResp envEcho.heartbeat)])
      else
        (AgentStatus.closed, sessOne,
          [Effect.send (handshakeResp envEcho.heartbeat), Effect.log envEcho.sendErr,
            Effect.close])) :=
  ⟨rfl, handshake_reply_and_close_on_send_failure envEcho AgentStatus.start sessOne pktHs rfl⟩

/-! ## Claim C7 -/

/-- Claim C7: `processMessage` sets `session.LastID` to `msg.ID` for a
Request, to 0 for a Notify, and rejects any other message type, logging
`invalid message type` and doing nothing else (no routing, no handler
invocation, session unchanged). -/
theorem processMessage_lastid (env : Env) (s : Session) (m : Message) :
    (m.type = MsgType.Request → (processMessage env s m).1.lastID = m.id)
    ∧ (m.type = MsgType.Notify → (processMessage env s m).1.lastID = 0)
    ∧ ((m.type = MsgType.Response ∨ m.type = MsgType.Push) →
        processMessage env s m = (s, [Effect.log ("invalid message type")])) := by
  refine ⟨fun ht => ?_, fun ht => ?_, fun ht => ?_⟩
  · simp [processMessage, ht, dispatch_fst]
  · simp [processMessage, ht, dispatch_fst]
  · rcases ht with ht | ht <;> simp [processMessage, ht]

/-- Concrete instance of the C7 theorem: a Request sets `LastID` to its
id, a Notify resets it to 0, a Response-typed message is rejected. -/
theorem processMessage_lastid_witness :
    (processMessage envEcho sessOne msgEcho).1.lastID = msgEcho.id
    ∧ (processMessage envEcho sessOne msgNotify).1.lastID = 0
    ∧ processMessage envEcho sessOne msgOther = (sessOne, [Effect.log ("invalid message type")]) :=
  ⟨(processMessage_lastid envEcho sessOne msgEcho).1 rfl,
   (processMessage_lastid envEcho sessOne msgNotify).2.1 rfl,
   (processMessage_lastid envEcho sessOne msgOther).2.2 (Or.inl rfl)⟩

/-! ## Claim C1 -/

/-- Claim C1 counterexample: an agent still in the `start` status (no
handshake yet) receives a Data packet, and `processPacket` nevertheless
decodes it, invokes the `Echo.Say` handler and triggers a heartbeat — the
message is not dropped and no drop is logged, contradicting the claim
that a Data message is processed only in the `working` status. -/
theorem data_processed_in_start_status :
    processPacket envEcho AgentStatus.start sessOne pktData =
      (AgentStatus.start, { id := 1, lastID := 7 },
        [Effect.invoke ("Echo") ("Say") [104, 105], Effect.heartbeat]) := by
  decide

/-- Claim C1 (amended): `processPacket` has no status gate — for every
agent status whatsoever, a Data packet whose body decodes to a message is
dispatched through `processMessage` and then triggers a heartbeat. -/
theorem processPacket_data_no_status_gate
    (env : Env) (st : AgentStatus) (s : Session) (p : Packet) (m : Message)
    (hp : p.typ = 4) (hm : env.decodeMsg p.data = Except.ok m) :
    processPacket env st s p =
      (st, (processMessage env s m).1, (processMessage env s m).2 ++ [Effect.heartbeat]) := by
  simp [processPacket, hp, hm]

/-- Concrete instance of the amended C1 theorem: even a closed agent
still dispatches a Data packet. -/
theorem processPacket_data_no_status_gate_witness :
    pktData.typ = 4
    ∧ envEcho.decodeMsg pktData.data = Except.ok msgEcho
    ∧ processPacket envEcho AgentStatus.closed sessOne pktData =
      (AgentStatus.closed, (processMessage envEcho sessOne msgEcho).1,
        (processMessage envEcho sessOne msgEcho).2 ++ [Effect.heartbeat]) :=
  ⟨rfl, rfl,
    processPacket_data_no_status_gate envEcho AgentStatus.closed sessOne pktData msgEcho rfl rfl⟩

/-! ## Claim C8 -/

/-- Claim C8: for every successfully decoded route, the dispatcher
invokes the handler locally exactly when the route's server type is empty
or equals the node's configured type (an empty server type being replaced
by the local type), and otherwise forwards to the cluster collaborator. -/
theorem dispatch_local_iff_type_matches
    (env : Env) (s : Session) (m : Message) (r : Route)
    (hr : routeDecode m.route = Except.ok r) :
    dispatch env s m =
      (if r.serverType = "" ∨ r.serverType = env.cfgType then
        (s, (localProcess env s (defaultRoute env.cfgType r) m).1 ++
          recoverLog (localProcess env s (defaultRoute env.cfgType r) m).2)
      else
        (s, remoteProcess env s (defaultRoute env.cfgType r) m)) := by
  unfold dispatch
  rw [hr]
  by_cases he : r.serverType = ""
  · simp [defaultRoute, he]
  · have hd : defaultRoute env.cfgType r = r := by simp [defaultRoute, he]
    by_cases hc : r.serverType = env.cfgType <;> simp only [hd] <;> simp [he, hc]

/-- Concrete instance of the C8 theorem: the route `chat.room.join` on a
`connector` node goes to the cluster collaborator. -/
theorem dispatch_local_iff_type_matches_witness :
    routeDecode msgRemote.route =
      Except.ok { serverType := "chat", service := "room", method := "join" }
    ∧ dispatch envRemote { id := 1, lastID := 3 } msgRemote =
      (if ("chat" : String) = "" ∨ ("chat" : String) = envRemote.cfgType then
        ({ id := 1, lastID := 3 },
          (localProcess envRemote { id := 1, lastID := 3 }
            (defaultRoute envRemote.cfgType
              { serverType := "chat", service := "room", method := "join" }) msgRemote).1 ++
          recoverLog (localProcess envRemote { id := 1, lastID := 3 }
            (defaultRoute envRemote.cfgType
              { serverType := "chat", service := "room", method := "join" }) msgRemote).2)
      else
        ({ id := 1, lastID := 3 },
          remoteProcess envRemote { id := 1, lastID := 3 }
            (defaultRoute envRemote.cfgType
              { serverType := "chat", service := "room", method := "join" }) msgRemote)) :=
  ⟨rfl,
    dispatch_local_iff_type_matches envRemote { id := 1, lastID := 3 } msgRemote
      { serverType := "chat", service := "room", method := "join" } rfl⟩

/-! ## Claim C2 -/

/-- Claim C2 counterexample: a Request (id 3) for the remote route
`chat.room.join` on a `connector` node, against a cluster collaborator
that returns reply bytes `[9, 9]`.  The dispatcher makes the one
`Call(Sys, route, session, payload)` — and nothing else: the effect trace
is exactly that call, with no socket write, so the reply is never written
back as a Response, contradicting the claim. -/
theorem remote_reply_discarded :
    (processMessage envRemote sessOne msgRemote).2 =
      [Effect.clusterCall ("Sys") { serverType := "chat", service := "room", method := "join" }
        { id := 1, lastID := 3 } [5]]
    ∧ (processMessage envRemote sessOne msgRemote).2.filter Effect.isSend = [] := by
  decide

/-- Claim C2 (amended): for every Request routed to a foreign server
type, the dispatcher makes exactly one cluster call
`Call(Sys, route, session, payload)` with the session carrying the
request id as `LastID`; the call's reply is discarded (an error is only
logged) and no Response is written back on the agent. -/
theorem remoteProcess_one_call_no_response
    (env : Env) (s : Session) (m : Message) (r : Route)
    (ht : m.type = MsgType.Request) (hr : routeDecode m.route = Except.ok r)
    (he : r.serverType ≠ "") (hc : r.serverType ≠ env.cfgType) :
    (processMessage env s m).2.filter Effect.isCall =
      [Effect.clusterCall ("Sys") r { s with lastID := m.id } m.data]
    ∧ (processMessage env s m).2.filter Effect.isSend = [] := by
  have hd : defaultRoute env.cfgType r = r := by simp [defaultRoute, he]
  have hpm : processMessage env s m =
      ({ s with lastID := m.id }, remoteProcess env { s with lastID := m.id } r m) := by
    simp [processMessage, ht, dispatch, hr, hd, hc]
  rcases hcall : env.call r { s with lastID := m.id } m.data with e | v <;>
    simp [hpm, remoteProcess, hcall, Effect.isCall, Effect.isSend]

/-- Concrete instance of the amended C2 theorem. -/
theorem remoteProcess_one_call_no_response_witness :
    msgRemote.type = MsgType.Request
    ∧ routeDecode msgRemote.route =
        Except.ok { serverType := "chat", service := "room", method := "join" }
    ∧ ("chat" : String) ≠ ""
    ∧ ("chat" : String) ≠ envRemote.cfgType
    ∧ (processMessage envRemote sessOne msgRemote).2.filter Effect.isCall =
        [Effect.clusterCall ("Sys")
          { serverType := "chat", service := "room", method := "join" }
          { sessOne with lastID := msgRemote.id } msgRemote.data]
    ∧ (processMessage envRemote sessOne msgRemote).2.filter Effect.isSend = [] :=
  ⟨rfl, rfl, by decide, by decide,
    (remoteProcess_one_call_no_response envRemote sessOne msgRemote
      { serverType := "chat", service := "room", method := "join" } rfl rfl
      (by decide) (by decide)).1,
    (remoteProcess_one_call_no_response envRemote sessOne msgRemote
      { serverType := "chat", service := "room", method := "join" } rfl rfl
      (by decide) (by decide)).2⟩

/-! ## Claim C3 -/

/-- Claim C3 counterexample: a Request (id 11) for the unknown route
`nope.none` produces exactly one log line and no socket write — no
error-kind `NotFound` Response is sent back, contradicting the claim's
Request branch. -/
theorem unknown_route_no_not_found_response :
    (processMessage envNone sessOne msgUnknown).2 =
      [Effect.log ("handler: service: nope not found")]
    ∧ (processMessage envNone sessOne msgUnknown).2.filter Effect.isSend = [] := by
  decide

/-- Claim C3 (amended): a locally routed Request or Notify whose route
resolves to no registered service, or to a service lacking the named
method, is logged and dropped with no reply of any kind — the effect
trace is a single log line for Request and Notify alike. -/
theorem localProcess_unknown_route_log_drop
    (env : Env) (s : Session) (m : Message) (r : Route)
    (ht : m.type = MsgType.Request ∨ m.type = MsgType.Notify)
    (hr : routeDecode m.route = Except.ok r)
    (hl : r.serverType = "" ∨ r.serverType = env.cfgType)
    (hk : Lookup env.services r.service r.method = none) :
    ∃ t, (processMessage env s m).2 = [Effect.log t] := by
  have hds : ∀ s0 : Session, ∃ t, (dispatch env s0 m).2 = [Effect.log t] := by
    intro s0
    have hloc : (defaultRoute env.cfgType r).serverType = env.cfgType := by
      rcases hl with h | h
      · simp [defaultRoute, h]
      · unfold defaultRoute
        split
        · rfl
        · exact h
    have hsv : (defaultRoute env.cfgType r).service = r.service := by
      unfold defaultRoute
      split <;> rfl
    have hmt : (defaultRoute env.cfgType r).method = r.method := by
      unfold defaultRoute
      split <;> rfl
    unfold dispatch
    rw [hr]
    simp only [hloc, if_pos]
    unfold Lookup at hk
    unfold localProcess
    rw [hsv, hmt]
    rcases h1 : env.services.lookup r.service with _ | svc
    · exact ⟨"handler: service: " ++ r.service ++ " not found", by simp [h1, recoverLog]⟩
    · rw [h1] at hk
      have hk2 : List.lookup r.method svc.handlerMethod = none := hk
      exact ⟨"handler: " ++ r.service ++ " does not contain method: " ++ r.method,
        by simp [h1, hk2, recoverLog]⟩
  rcases ht with ht | ht
  · rcases hds { s with lastID := m.id } with ⟨t, hts⟩
    exact ⟨t, by simp [processMessage, ht, hts]⟩
  · rcases hds { s with lastID := 0 } with ⟨t, hts⟩
    exact ⟨t, by simp [processMessage, ht, hts]⟩

/-- Concrete instance of the amended C3 theorem. -/
theorem localProcess_unknown_route_log_drop_witness :
    (msgUnknown.type = MsgType.Request ∨ msgUnknown.type = MsgType.Notify)
    ∧ routeDecode msgUnknown.route =
        Except.ok { serverType := "", service := "nope", method := "none" }
    ∧ (("" : String) = "" ∨ ("" : String) = envNone.cfgType)
    ∧ Lookup envNone.services ("nope") ("none") = none
    ∧ ∃ t, (processMessage envNone sessOne msgUnknown).2 = [Effect.log t] :=
  ⟨Or.inl rfl, rfl, Or.inl rfl, rfl,
    localProcess_unknown_route_log_drop envNone sessOne msgUnknown
      { serverType := "", service := "nope", method := "none" }
      (Or.inl rfl) rfl (Or.inl rfl) rfl⟩

/-! ## Claim C4 -/

/-- Claim C4 counterexample: a Request (id 7) whose `Echo.Say` handler
panics with `boom` is recovered and logged, but the effect trace holds no
socket write — no error-kind `InternalError` Response is sent to the
client, contradicting the claim's Request branch. -/
theorem panic_no_internal_error_response :
    (processMessage envBoom sessOne msgEcho).2 =
      [Effect.invoke ("Echo") ("Say") [104, 105], Effect.log ("processMessage Error: boom")]
    ∧ (processMessage envBoom sessOne msgEcho).2.filter Effect.isSend = [] := by
  decide

/-- Claim C4 (amended): a handler panic is caught by the recovery barrier
inside `processMessage`, so only that message's processing terminates —
the run continues and every subsequent message is still processed — and
the failure is surfaced as a log event only: no Response of any kind is
sent to the client. -/
theorem panic_recovered_in_processMessage
    (env : Env) (s s' : Session) (m : Message) (r : Route) (e : String) (effs : List Effect)
    (ht : m.type = MsgType.Request ∨ m.type = MsgType.Notify)
    (hs : s' = (if m.type = MsgType.Request then { s with lastID := m.id }
      else { s with lastID := 0 }))
    (hr : routeDecode m.route = Except.ok r)
    (hl : r.serverType = "" ∨ r.serverType = env.cfgType)
    (hp : localProcess env s' (defaultRoute env.cfgType r) m = (effs, some e)) :
    processMessage env s m =
      (s', effs ++ [Effect.log ("processMessage Error: " ++ e)])
    ∧ (processMessage env s m).2.filter Effect.isSend = []
    ∧ ∀ rest, processMessages env s (m :: rest) =
        ((processMessages env s' rest).1,
          (effs ++ [Effect.log ("processMessage Error: " ++ e)]) ++
            (processMessages env s' rest).2) := by
  have hloc : (defaultRoute env.cfgType r).serverType = env.cfgType := by
    rcases hl with h | h
    · simp [defaultRoute, h]
    · unfold defaultRoute
      split
      · rfl
      · exact h
  have hd : dispatch env s' m = (s', effs ++ [Effect.log ("processMessage Error: " ++ e)]) := by
    simp [dispatch, hr, hloc, hp, recoverLog]
  have h1 : processMessage env s m =
      (s', effs ++ [Effect.log ("processMessage Error: " ++ e)]) := by
    rcases ht with ht | ht
    · have hs2 : s' = { s with lastID := m.id } := by simpa [ht] using hs
      rw [show processMessage env s m = dispatch env { s with lastID := m.id } m from by
        simp [processMessage, ht]]
      rw [← hs2]
      exact hd
    · have hs2 : s' = { s with lastID := 0 } := by simpa [ht] using hs
      rw [show processMessage env s m = dispatch env { s with lastID := 0 } m from by
        simp [processMessage, ht]]
      rw [← hs2]
      exact hd
  have hnosend : effs.filter Effect.isSend = [] := by
    have hls := localProcess_no_send env s' (defaultRoute env.cfgType r) m
    rw [hp] at hls
    exact hls
  refine ⟨h1, ?_, ?_⟩
  · simp [h1, hnosend, Effect.isSend, List.filter_append]
  · intro rest
    simp [processMessages, h1]

/-- Concrete instance of the amended C4 theorem, at a Notify message
whose `Echo.Say` handler panics: the panic is recovered, logged, and no
Response is sent. -/
theorem panic_recovered_witness :
    (msgNotify.type = MsgType.Request ∨ msgNotify.type = MsgType.Notify)
    ∧ ({ sessOne with lastID := 0 } : Session) =
        (if msgNotify.type = MsgType.Request then { sessOne with lastID := msgNotify.id }
          else { sessOne with lastID := 0 })
    ∧ routeDecode msgNotify.route =
        Except.ok { serverType := "", service := "Echo", method := "Say" }
    ∧ (("" : String) = "" ∨ ("" : String) = envBoom.cfgType)
    ∧ localProcess envBoom { sessOne with lastID := 0 }
        (defaultRoute envBoom.cfgType { serverType := "", service := "Echo", method := "Say" })
        msgNotify = ([Effect.invoke ("Echo") ("Say") []], some ("boom"))
    ∧ processMessage envBoom sessOne msgNotify =
        ({ sessOne with lastID := 0 },
          [Effect.invoke ("Echo") ("Say") []] ++
            [Effect.log ("processMessage Error: " ++ "boom")])
    ∧ (processMessage envBoom sessOne msgNotify).2.filter Effect.isSend = [] :=
  ⟨Or.inr rfl, rfl, rfl, Or.inl rfl, rfl,
    (panic_recovered_in_processMessage envBoom sessOne { sessOne with lastID := 0 } msgNotify
      { serverType := "", service := "Echo", method := "Say" } ("boom")
      [Effect.invoke ("Echo") ("Say") []] (Or.inr rfl) rfl rfl (Or.inl rfl) rfl).1,
    (panic_recovered_in_processMessage envBoom sessOne { sessOne with lastID := 0 } msgNotify
      { serverType := "", service := "Echo", method := "Say" } ("boom")
      [Effect.invoke ("Echo") ("Say") []] (Or.inr rfl) rfl rfl (Or.inl rfl) rfl).2.1⟩

/-! ## Claim C9 -/

/-- Claim C9: `Register` returns an error exactly when the receiver's
type name is empty, or not exported, or already registered, or structural
discovery found zero suitable methods; otherwise it installs the service
and returns nil. -/
theorem register_error_conditions (m : List (String × Service)) (r : RegComponent) :
    ((Register m r).1.isSome ↔
      (r.typeName = "" ∨ isExported r.typeName = false ∨
        (m.lookup r.typeName).isSome ∨ r.methods = []))
    ∧ ((Register m r).1 = none →
      Register m r =
        (none, (r.typeName, { name := r.typeName, handlerMethod := r.methods }) :: m)) := by
  unfold Register
  by_cases h1 : r.typeName = ""
  · simp [h1]
  · by_cases h2 : isExported r.typeName = false
    · simp [h1, h2]
    · by_cases h3 : (m.lookup r.typeName).isSome
      · simp [h1, h2, h3]
      · by_cases h4 : r.methods.length = 0
        · have h4e : r.methods = [] := List.length_eq_zero.mp h4
          simp [h1, h2, h3, h4, h4e]
        · have h4n : ¬ r.methods = [] := by
            intro hnil
            exact h4 (by simp [hnil])
          simp [h1, h2, h3, h4, h4n]

/-- Concrete instance of the C9 theorem: registering the echo component
into an empty map succeeds and installs it. -/
theorem register_error_conditions_witness :
    (Register [] regEcho).1 = none
    ∧ Register [] regEcho =
        (none, (regEcho.typeName,
          { name := regEcho.typeName, handlerMethod := regEcho.methods }) :: []) :=
  ⟨rfl, (register_error_conditions [] regEcho).2 rfl⟩

/-! ## Claim C10 -/

/-- Claim C10: whenever `Register` returns an error, the service map is
left exactly as it was, and every subsequent `Lookup` observes the same
services and methods as before the failed call. -/
theorem register_failure_leaves_map
    (m : List (String × Service)) (r : RegComponent) (e : String)
    (h : (Register m r).1 = some e) :
    (Register m r).2 = m
    ∧ ∀ svc mth, Lookup (Register m r).2 svc mth = Lookup m svc mth := by
  have h2 : (Register m r).2 = m := by
    unfold Register at h ⊢
    by_cases h1 : r.typeName = ""
    · simp [h1]
    · by_cases hb : isExported r.typeName = false
      · simp [h1, hb]
      · by_cases h3 : (m.lookup r.typeName).isSome
        · simp [h1, hb, h3]
        · by_cases h4 : r.methods.length = 0
          · simp [h1, hb, h3, h4]
          · simp [h1, hb, h3, h4] at h
  exact ⟨h2, fun svc mth => by rw [h2]⟩

/-- Concrete instance of the C10 theorem: re-registering the already
present echo service fails and leaves the map untouched. -/
theorem register_failure_leaves_map_witness :
    (Register svcMapEcho regEcho).1 = some ("handler: service already defined: Echo")
    ∧ (Register svcMapEcho regEcho).2 = svcMapEcho
    ∧ Lookup (Register svcMapEcho regEcho).2 ("Echo") ("Say") =
        Lookup svcMapEcho ("Echo") ("Say") :=
  ⟨rfl,
    (register_failure_leaves_map svcMapEcho regEcho
      ("handler: service already defined: Echo") rfl).1,
    (register_failure_leaves_map svcMapEcho regEcho
      ("handler: service already defined: Echo") rfl).2 ("Echo") ("Say")⟩

end Starx
